import Mathlib

/-!
# Verification of the terrain-clamping core (src/lib/terrainClamp.js)

A shallow embedding of the terrain-clamping pipeline of the digital-twin
repository.  JavaScript numbers are modelled as rationals; a 4x4 Cesium
matrix is a function on indices; an optionally-absent field is an Option;
a thrown JavaScript exception is an Except error.  External Cesium library
routines that the repository merely calls (geodetic conversion, oriented
box construction from a point cloud, vector normalisation) are parameters
of the model, collected in a GeoEnv record; everything else mirrors the
source control flow of terrainClamp.js statement by statement.
-/

namespace TerrainClamp

/-- A Cesium Cartesian3, modelled with exact rational coordinates. -/
structure Cartesian3 where
  x : ℚ
  y : ℚ
  z : ℚ
  deriving DecidableEq, Repr

namespace Cartesian3

/-- Componentwise sum, mirroring Cesium Cartesian3.add. -/
def add (a b : Cartesian3) : Cartesian3 :=
  ⟨a.x + b.x, a.y + b.y, a.z + b.z⟩

/-- Componentwise difference, mirroring Cesium Cartesian3.subtract. -/
def sub (a b : Cartesian3) : Cartesian3 :=
  ⟨a.x - b.x, a.y - b.y, a.z - b.z⟩

/-- Cross product, mirroring Cesium Cartesian3.cross. -/
def cross (a b : Cartesian3) : Cartesian3 :=
  ⟨a.y * b.z - a.z * b.y, a.z * b.x - a.x * b.z, a.x * b.y - a.y * b.x⟩

end Cartesian3

/-- A Cesium Cartographic: geodetic longitude, latitude and height. -/
structure Cartographic where
  longitude : ℚ
  latitude : ℚ
  height : ℚ
  deriving DecidableEq, Repr

/-- A 4x4 matrix of rationals, modelling Cesium Matrix4 with its 16 stored
components; field mij is the entry at row i, column j. -/
structure Mat4 where
  m00 : ℚ
  m01 : ℚ
  m02 : ℚ
  m03 : ℚ
  m10 : ℚ
  m11 : ℚ
  m12 : ℚ
  m13 : ℚ
  m20 : ℚ
  m21 : ℚ
  m22 : ℚ
  m23 : ℚ
  m30 : ℚ
  m31 : ℚ
  m32 : ℚ
  m33 : ℚ
  deriving DecidableEq, Repr

/-- Matrix4.IDENTITY. -/
def idMat : Mat4 :=
  ⟨1, 0, 0, 0, 0, 1, 0, 0, 0, 0, 1, 0, 0, 0, 0, 1⟩

/-- Matrix4.multiply(A, B): the standard row-by-column product, with the
four-term sums Cesium itself unrolls. -/
def matMul (a b : Mat4) : Mat4 where
  m00 := a.m00 * b.m00 + a.m01 * b.m10 + a.m02 * b.m20 + a.m03 * b.m30
  m01 := a.m00 * b.m01 + a.m01 * b.m11 + a.m02 * b.m21 + a.m03 * b.m31
  m02 := a.m00 * b.m02 + a.m01 * b.m12 + a.m02 * b.m22 + a.m03 * b.m32
  m03 := a.m00 * b.m03 + a.m01 * b.m13 + a.m02 * b.m23 + a.m03 * b.m33
  m10 := a.m10 * b.m00 + a.m11 * b.m10 + a.m12 * b.m20 + a.m13 * b.m30
  m11 := a.m10 * b.m01 + a.m11 * b.m11 + a.m12 * b.m21 + a.m13 * b.m31
  m12 := a.m10 * b.m02 + a.m11 * b.m12 + a.m12 * b.m22 + a.m13 * b.m32
  m13 := a.m10 * b.m03 + a.m11 * b.m13 + a.m12 * b.m23 + a.m13 * b.m33
  m20 := a.m20 * b.m00 + a.m21 * b.m10 + a.m22 * b.m20 + a.m23 * b.m30
  m21 := a.m20 * b.m01 + a.m21 * b.m11 + a.m22 * b.m21 + a.m23 * b.m31
  m22 := a.m20 * b.m02 + a.m21 * b.m12 + a.m22 * b.m22 + a.m23 * b.m32
  m23 := a.m20 * b.m03 + a.m21 * b.m13 + a.m22 * b.m23 + a.m23 * b.m33
  m30 := a.m30 * b.m00 + a.m31 * b.m10 + a.m32 * b.m20 + a.m33 * b.m30
  m31 := a.m30 * b.m01 + a.m31 * b.m11 + a.m32 * b.m21 + a.m33 * b.m31
  m32 := a.m30 * b.m02 + a.m31 * b.m12 + a.m32 * b.m22 + a.m33 * b.m32
  m33 := a.m30 * b.m03 + a.m31 * b.m13 + a.m32 * b.m23 + a.m33 * b.m33

/-- Matrix4.fromTranslation(v): identity linear part, translation in the
last column. -/
def fromTranslation (v : Cartesian3) : Mat4 :=
  ⟨1, 0, 0, v.x, 0, 1, 0, v.y, 0, 0, 1, v.z, 0, 0, 0, 1⟩

/-- Matrix4.getTranslation(m): the last column of the matrix. -/
def getTranslation (m : Mat4) : Cartesian3 :=
  ⟨m.m03, m.m13, m.m23⟩

/-- The 12 entries of a matrix outside its translation column: the
rotation/scale (linear) part together with the bottom projective row. -/
def Mat4.nonTranslationPart (m : Mat4) : List ℚ :=
  [ m.m00, m.m01, m.m02, m.m10, m.m11, m.m12,
    m.m20, m.m21, m.m22, m.m30, m.m31, m.m32 ]

/-- An oriented bounding box: a center and three half-extent axis vectors
(the columns of Cesium's halfAxes matrix). -/
structure OBB where
  center : Cartesian3
  axisX : Cartesian3
  axisY : Cartesian3
  axisZ : Cartesian3
  deriving DecidableEq, Repr

namespace OBB

/-- One corner of the box: the center displaced by each half axis with the
chosen sign (true = +, false = -). -/
def corner (b : OBB) (sx sy sz : Bool) : Cartesian3 :=
  let px := if sx then b.center.add b.axisX else b.center.sub b.axisX
  let py := if sy then px.add b.axisY else px.sub b.axisY
  if sz then py.add b.axisZ else py.sub b.axisZ

/-- OrientedBoundingBox.computeCorners: the 8 corners in the documented
order (-X-Y-Z), (-X-Y+Z), (-X+Y-Z), (-X+Y+Z), (+X-Y-Z), (+X-Y+Z),
(+X+Y-Z), (+X+Y+Z). -/
def computeCorners (b : OBB) : List Cartesian3 :=
  [ b.corner false false false, b.corner false false true,
    b.corner false true false, b.corner false true true,
    b.corner true false false, b.corner true false true,
    b.corner true true false, b.corner true true true ]

/-- The 4 bottom corners extracted in applyTerrainClamping: indices
0, 2, 4, 6 of computeCorners (the -Z face). -/
def bottomCorners (b : OBB) : List Cartesian3 :=
  [ b.corner false false false, b.corner false true false,
    b.corner true false false, b.corner true true false ]

end OBB

/-- External Cesium geometry routines used by terrainClamp.js.  These live
in the terriajs-cesium library, outside this repository, so the model takes
them as parameters. -/
structure GeoEnv where
  /-- Cartographic.fromCartesian (geocentric to geodetic conversion). -/
  fromCartesian : Cartesian3 → Cartographic
  /-- Cartesian3.fromRadians (geodetic to geocentric conversion). -/
  fromRadians : ℚ → ℚ → ℚ → Cartesian3
  /-- OrientedBoundingBox.fromPoints (covariance fit of a point cloud). -/
  fromPoints : List Cartesian3 → OBB
  /-- Cartesian3.normalize. -/
  normalize : Cartesian3 → Cartesian3

/-- The terrain query capabilities of the scene, as probed by
getTerrainHeightAtPosition: an optionally-available globe.getHeight and an
optionally-available scene.clampToHeight, each returning an optionally
absent answer. -/
structure SceneQueries where
  globeGetHeight : Option (Cartographic → Option ℚ)
  clampToHeight : Option (Cartesian3 → Option Cartesian3)

/-- getTerrainHeightAtPosition: prefer globe.getHeight, fall back to
clampToHeight against the globe only, return absence when neither answers.
All internal failures are caught in the source and become absence. -/
def getTerrainHeightAtPosition (sq : SceneQueries) (env : GeoEnv)
    (carto : Cartographic) : Option ℚ :=
  match sq.globeGetHeight with
  | some f => f carto
  | none =>
    match sq.clampToHeight with
    | some g =>
      let cartesian := env.fromRadians carto.longitude carto.latitude carto.height
      match g cartesian with
      | some p => some (env.fromCartesian p).height
      | none => none
    | none => none

/-- The result object of calculateBestFitPlane on success. -/
structure BestFit where
  averageHeightDifference : ℚ
  normal : Cartesian3
  heights : List ℚ
  deriving DecidableEq, Repr

/-- calculateBestFitPlane: requires exactly 4 corners and 4 heights with
every height present (otherwise the source throws internally and returns a
failure object, modelled as none); on success averages the per-corner
signed differences terrain minus geodetic corner height and computes the
footprint normal from two edge vectors. -/
def calculateBestFitPlane (env : GeoEnv) :
    List Cartesian3 → List (Option ℚ) → Option BestFit
  | [c0, c1, c2, c3], [some h0, some h1, some h2, some h3] =>
    let g0 := (env.fromCartesian c0).height
    let g1 := (env.fromCartesian c1).height
    let g2 := (env.fromCartesian c2).height
    let g3 := (env.fromCartesian c3).height
    let avg := ((h0 - g0) + (h1 - g1) + (h2 - g2) + (h3 - g3)) / 4
    let edge1 := c1.sub c0
    let edge2 := c3.sub c0
    some { averageHeightDifference := avg
           normal := env.normalize (edge1.cross edge2)
           heights := [h0, h1, h2, h3] }
  | _, _ => none

/-- calculateAdjustmentTransform: identity composed with a pure translation
(0, 0, averageHeightDifference + heightOffset); the bounding box argument
and the fitted normal are not used. -/
def calculateAdjustmentTransform (_boundingBox : OBB) (bestFitResult : BestFit)
    (heightOffset : ℚ) : Mat4 :=
  let adjustmentMatrix := idMat
  let heightAdjustment := bestFitResult.averageHeightDifference + heightOffset
  let translationMatrix := fromTranslation ⟨0, 0, heightAdjustment⟩
  matMul adjustmentMatrix translationMatrix

/-- A tile's content object (tile._content), holding its model matrix. -/
structure TileContent where
  modelMatrix : Option Mat4

/-- A selected tile (tileset._selectedTiles element). -/
structure Tile where
  content : Option TileContent

/-- tileset.root.boundingVolume: the private oriented box and bounding
sphere fields probed by the source. -/
structure BoundingVolume where
  orientedBoundingBox : Option OBB
  boundingSphere : Option Cartesian3

/-- The root tile: its bounding volume, and its transform field (read by
the host framework as the fixed input of its per-frame model-matrix
recomputation). -/
structure RootTile where
  boundingVolume : Option BoundingVolume
  transform : Option Mat4

/-- A whole-asset bounding sphere. -/
structure Sphere where
  center : Cartesian3
  radius : ℚ

/-- The tileset fields read or written by terrainClamp.js. -/
structure Tileset where
  root : Option RootTile
  boundingSphere : Option Sphere
  modelMatrix : Option Mat4
  selectedTiles : Option (List Tile)

/-- The scene state mutated by drawBoundingBox: the primitive collection,
the scene-attached visualization tracking list, and the pending timed
removals (delay in milliseconds paired with the primitive). -/
structure SceneState where
  primitives : List ℕ
  terrainClampVisualizations : Option (List ℕ)
  scheduledRemovals : List (ℕ × ℕ)
  nextId : ℕ

/-- The mutable state a clamp run touches: the tileset and the scene. -/
structure ClampState where
  tileset : Tileset
  scene : SceneState

/-- A thrown JavaScript exception crossing a function boundary. -/
inductive JsErr where
  | typeError
  deriving DecidableEq, Repr

/-- The observable outcome of a clamp run: precise is the JS true returned
after the oriented-box tier succeeds, fallback is the JS true returned from
applyFallbackClamping, failed is the JS false. -/
inductive Outcome where
  | precise
  | fallback
  | failed
  deriving DecidableEq, Repr

/-- samplePoints collection (lines 97 to 109 of the source): translations
of the model matrices of selected tiles that have content with a matrix. -/
def samplePointsOf (tiles : List Tile) : List Cartesian3 :=
  tiles.filterMap fun t => t.content.bind fun c => c.modelMatrix.map getTranslation

/-- The oriented box actually used by the tier (lines 111 to 160): a box
fit to the sample points when at least 3 are available, else the existing
root oriented box. -/
def effectiveBox (env : GeoEnv) (pts : List Cartesian3) (box : OBB) : OBB :=
  if 3 ≤ pts.length then env.fromPoints pts else box

/-- drawBoundingBox: adds the bounding-box polyline primitive and the
corner-sphere primitive to the scene's primitive collection, records both
in the scene-attached tracking list (created on first use), and schedules
each for removal 60000 milliseconds later.  The source's defensive early
returns fire only on an empty corner list here, because a live scene
always has a primitive collection and rational coordinates are always
defined. -/
def drawBoundingBox (scene : SceneState) (_box : OBB)
    (corners : List Cartesian3) : SceneState :=
  if corners.isEmpty then scene
  else
    let boxId := scene.nextId
    let sphereId := scene.nextId + 1
    let vis := scene.terrainClampVisualizations.getD []
    { primitives := scene.primitives ++ [boxId, sphereId]
      terrainClampVisualizations := some (vis ++ [boxId, sphereId])
      scheduledRemovals := scene.scheduledRemovals ++ [(60000, boxId), (60000, sphereId)]
      nextId := scene.nextId + 2 }

/-- applyFallbackClamping: sample terrain at the whole-asset sphere center,
return false when the sample is absent, otherwise compose the model matrix
with a pure vertical translation and return true.  Reading the center of
an absent bounding sphere throws. -/
def applyFallbackClamping (env : GeoEnv) (sq : SceneQueries) (st : ClampState)
    (heightOffset : ℚ) : ClampState × Except JsErr Bool :=
  match st.tileset.boundingSphere with
  | none => (st, .error .typeError)
  | some sphere =>
    let carto := env.fromCartesian sphere.center
    match getTerrainHeightAtPosition sq env carto with
    | none => (st, .ok false)
    | some terrainHeight =>
      let heightDifference := terrainHeight - carto.height + heightOffset
      let translationMatrix := fromTranslation ⟨0, 0, heightDifference⟩
      let currentModelMatrix := st.tileset.modelMatrix.getD idMat
      let newModelMatrix := matMul currentModelMatrix translationMatrix
      ({ st with tileset := { st.tileset with modelMatrix := some newModelMatrix } },
       .ok true)

/-- A fallback invocation from inside the try block, with the JS boolean
mapped to the outcome tag recording which return statement produced it. -/
def fallbackWithin (env : GeoEnv) (sq : SceneQueries) (st : ClampState)
    (heightOffset : ℚ) : ClampState × Except JsErr Outcome :=
  match applyFallbackClamping env sq st heightOffset with
  | (st', .ok true) => (st', .ok .fallback)
  | (st', .ok false) => (st', .ok .failed)
  | (st', .error e) => (st', .error e)

/-- The try block of applyTerrainClamping (lines 86 to 230): probe the root
oriented bounding box (descending to the fallback tier when absent), build
the effective box, draw the debug visualization, sample terrain at the 4
bottom corners, fit, and on success write the composed model matrix back.
Reading the bounding volume of an absent root throws. -/
def tryBlock (env : GeoEnv) (sq : SceneQueries) (st : ClampState)
    (heightOffset : ℚ) : ClampState × Except JsErr Outcome :=
  match st.tileset.root with
  | none => (st, .error .typeError)
  | some root =>
    let obbOpt := match root.boundingVolume with
      | none => none
      | some bv => bv.orientedBoundingBox
    match obbOpt with
    | none => fallbackWithin env sq st heightOffset
    | some box =>
      let pts := samplePointsOf (st.tileset.selectedTiles.getD [])
      let ebox := effectiveBox env pts box
      let corners := ebox.bottomCorners
      let scene' := drawBoundingBox st.scene ebox corners
      let st' := { st with scene := scene' }
      let terrainHeights := corners.map fun c =>
        getTerrainHeightAtPosition sq env (env.fromCartesian c)
      match calculateBestFitPlane env corners terrainHeights with
      | none => fallbackWithin env sq st' heightOffset
      | some bestFitResult =>
        let adjustmentTransform := calculateAdjustmentTransform ebox bestFitResult heightOffset
        let currentModelMatrix := st'.tileset.modelMatrix.getD idMat
        let newModelMatrix := matMul currentModelMatrix adjustmentTransform
        ({ st' with tileset := { st'.tileset with modelMatrix := some newModelMatrix } },
         .ok .precise)

/-- applyTerrainClamping after the initial wait step: run the try block;
a thrown error is caught and answered by one more fallback attempt, whose
own thrown errors propagate to the caller uncaught. -/
def applyTerrainClampingModel (env : GeoEnv) (sq : SceneQueries) (st : ClampState)
    (heightOffset : ℚ) : ClampState × Except JsErr Outcome :=
  match tryBlock env sq st heightOffset with
  | (st', .ok o) => (st', .ok o)
  | (st', .error _) =>
    match applyFallbackClamping env sq st' heightOffset with
    | (st'', .ok b) => (st'', .ok (if b then .fallback else .failed))
    | (st'', .error e) => (st'', .error e)

/-- The readiness environment of the initial wait step (lines 56 to 84):
whether initial tiles are already loaded, whether a readyPromise exists and
when (if ever) it settles, and when (if ever) the initialTilesLoaded event
fires.  Times are milliseconds; none means never. -/
structure WaitEnv where
  initialTilesLoaded : Bool
  readyPromise : Option (Option ℕ)
  initialTilesLoadedEvent : Option ℕ
  deriving DecidableEq, Repr

/-- When the wait step completes: immediately when tiles are loaded; when
the readyPromise settles (resolution and rejection both resolve the wait,
with no timeout in that branch); otherwise at the earlier of the event
firing and the 5000 millisecond timeout. -/
def waitForInitialContent (w : WaitEnv) : Option ℕ :=
  if w.initialTilesLoaded then some 0
  else
    match w.readyPromise with
    | some settleTime => settleTime
    | none => some (min (w.initialTilesLoadedEvent.getD 5000) 5000)

/-! ## Concrete sample data shared by the witness theorems -/

/-- A sample oriented box with the half axes of the end-to-end scenario of
the spec. -/
def sampleOBB : OBB :=
  ⟨⟨0, 0, 0⟩, ⟨25, 0, 0⟩, ⟨0, 25, 0⟩, ⟨0, 0, 100⟩⟩

/-- A sample geometry environment in which every position has geodetic
height 100. -/
def sampleEnv : GeoEnv where
  fromCartesian := fun _ => ⟨0, 0, 100⟩
  fromRadians := fun _ _ _ => ⟨0, 0, 0⟩
  fromPoints := fun _ => sampleOBB
  normalize := fun v => v

/-- A sample scene whose globe answers every height query with 80. -/
def sampleQueries : SceneQueries where
  globeGetHeight := some fun _ => some 80
  clampToHeight := none

/-- A scene whose globe is present but has no height data anywhere. -/
def absentQueries : SceneQueries where
  globeGetHeight := some fun _ => none
  clampToHeight := none

/-- An empty scene state. -/
def emptyScene : SceneState :=
  ⟨[], none, [], 0⟩

/-! ## General lemmas about the matrix model -/

theorem matMul_idMat (m : Mat4) : matMul m idMat = m := by
  cases m; simp [matMul, idMat]

theorem idMat_matMul (m : Mat4) : matMul idMat m = m := by
  cases m; simp [matMul, idMat]

theorem fromTranslation_zero_eq_idMat : fromTranslation ⟨0, 0, 0⟩ = idMat := rfl

theorem matMul_fromTranslation_nonTranslationPart (m : Mat4) (v : Cartesian3) :
    (matMul m (fromTranslation v)).nonTranslationPart = m.nonTranslationPart := by
  cases m; simp [matMul, fromTranslation, Mat4.nonTranslationPart]

/-! ## General lemmas about the clamp pipeline -/

/-- Writing a fresh model matrix is the only tileset mutation the clamp
performs; this abbreviation keeps the statements below readable. -/
def writeModelMatrix (st : ClampState) (m : Mat4) : ClampState :=
  { st with tileset := { st.tileset with modelMatrix := some m } }

theorem bestFitPlane_absent (env : GeoEnv) (corners : List Cartesian3)
    (heights : List (Option ℚ)) (h : none ∈ heights) :
    calculateBestFitPlane env corners heights = none := by
  rcases corners with _ | ⟨c0, _ | ⟨c1, _ | ⟨c2, _ | ⟨c3, _ | ⟨c4, cs⟩⟩⟩⟩⟩ <;>
    rcases heights with _ | ⟨_ | v0, _ | ⟨_ | v1, _ | ⟨_ | v2, _ | ⟨_ | v3, _ | ⟨h4, hs⟩⟩⟩⟩⟩ <;>
    first
    | rfl
    | simp_all

theorem applyFallbackClamping_sphere_none (env : GeoEnv) (sq : SceneQueries)
    (st : ClampState) (off : ℚ) (h : st.tileset.boundingSphere = none) :
    applyFallbackClamping env sq st off = (st, .error .typeError) := by
  simp only [applyFallbackClamping, h]

theorem applyFallbackClamping_sample_absent (env : GeoEnv) (sq : SceneQueries)
    (st : ClampState) (off : ℚ) (s : Sphere)
    (hs : st.tileset.boundingSphere = some s)
    (hq : getTerrainHeightAtPosition sq env (env.fromCartesian s.center) = none) :
    applyFallbackClamping env sq st off = (st, .ok false) := by
  simp only [applyFallbackClamping, hs, hq]

theorem applyFallbackClamping_sample_present (env : GeoEnv) (sq : SceneQueries)
    (st : ClampState) (off : ℚ) (s : Sphere) (t : ℚ)
    (hs : st.tileset.boundingSphere = some s)
    (hq : getTerrainHeightAtPosition sq env (env.fromCartesian s.center) = some t) :
    applyFallbackClamping env sq st off =
      (writeModelMatrix st
        (matMul (st.tileset.modelMatrix.getD idMat)
          (fromTranslation ⟨0, 0, t - (env.fromCartesian s.center).height + off⟩)),
       .ok true) := by
  simp only [applyFallbackClamping, hs, hq, writeModelMatrix]

theorem applyFallbackClamping_error_state (env : GeoEnv) (sq : SceneQueries)
    (st st' : ClampState) (off : ℚ) (e : JsErr)
    (h : applyFallbackClamping env sq st off = (st', .error e)) : st' = st := by
  cases hs : st.tileset.boundingSphere with
  | none =>
    rw [applyFallbackClamping_sphere_none env sq st off hs] at h
    exact (Prod.ext_iff.mp h).1.symm
  | some s =>
    cases hq : getTerrainHeightAtPosition sq env (env.fromCartesian s.center) with
    | none =>
      rw [applyFallbackClamping_sample_absent env sq st off s hs hq] at h
      exact absurd (Prod.ext_iff.mp h).2 (by simp)
    | some t =>
      rw [applyFallbackClamping_sample_present env sq st off s t hs hq] at h
      exact absurd (Prod.ext_iff.mp h).2 (by simp)

theorem model_eq_fallbackWithin (env : GeoEnv) (sq : SceneQueries)
    (st st' : ClampState) (off : ℚ)
    (h : tryBlock env sq st off = fallbackWithin env sq st' off) :
    applyTerrainClampingModel env sq st off = fallbackWithin env sq st' off := by
  unfold applyTerrainClampingModel
  rw [h]
  unfold fallbackWithin
  cases hfb : applyFallbackClamping env sq st' off with
  | mk st'' r =>
    cases r with
    | ok b =>
      cases b <;> simp
    | error e =>
      have hst : st'' = st' := applyFallbackClamping_error_state env sq st' st'' off e hfb
      subst hst
      simp [hfb]

/-! ## Claim theorems -/

/-- Claim C1: for an oriented-box-tier clamp in which all 4 footprint
corners have present terrain samples, the fitted scalar equals the average
over the 4 corners of terrain height minus geodetic corner height, and the
adjustment transform is the pure translation by that average plus the
caller-supplied height offset; in particular, corners of geodetic height
100, terrain 80 at all 4 corners and height offset 10 give the translation
(0, 0, -10). -/
theorem claim_C1_offset_is_corner_average :
    (∀ (env : GeoEnv) (obb : OBB) (c0 c1 c2 c3 : Cartesian3) (t0 t1 t2 t3 off : ℚ),
      ∃ bf, calculateBestFitPlane env [c0, c1, c2, c3]
              [some t0, some t1, some t2, some t3] = some bf
        ∧ bf.averageHeightDifference =
            ((t0 - (env.fromCartesian c0).height) + (t1 - (env.fromCartesian c1).height)
              + (t2 - (env.fromCartesian c2).height)
              + (t3 - (env.fromCartesian c3).height)) / 4
        ∧ calculateAdjustmentTransform obb bf off
            = fromTranslation ⟨0, 0, bf.averageHeightDifference + off⟩)
  ∧ (∀ (env : GeoEnv) (obb : OBB) (c0 c1 c2 c3 : Cartesian3),
      (env.fromCartesian c0).height = 100 → (env.fromCartesian c1).height = 100 →
      (env.fromCartesian c2).height = 100 → (env.fromCartesian c3).height = 100 →
      ∃ bf, calculateBestFitPlane env [c0, c1, c2, c3]
              [some 80, some 80, some 80, some 80] = some bf
        ∧ calculateAdjustmentTransform obb bf 10 = fromTranslation ⟨0, 0, -10⟩) := by
  constructor
  · intro env obb c0 c1 c2 c3 t0 t1 t2 t3 off
    refine ⟨_, rfl, rfl, ?_⟩
    simp [calculateAdjustmentTransform, idMat_matMul]
  · intro env obb c0 c1 c2 c3 h0 h1 h2 h3
    refine ⟨_, rfl, ?_⟩
    simp only [calculateAdjustmentTransform, calculateBestFitPlane, idMat_matMul]
    rw [h0, h1, h2, h3]
    norm_num

/-- Witness for C1: the spec's synthetic unit test, evaluated in the
sample environment where every position has geodetic height 100. -/
theorem claim_C1_witness :
    ∃ bf, calculateBestFitPlane sampleEnv
            [⟨0, 0, 0⟩, ⟨0, 0, 0⟩, ⟨0, 0, 0⟩, ⟨0, 0, 0⟩]
            [some 80, some 80, some 80, some 80] = some bf
      ∧ calculateAdjustmentTransform sampleOBB bf 10 = fromTranslation ⟨0, 0, -10⟩ :=
  claim_C1_offset_is_corner_average.2 sampleEnv sampleOBB _ _ _ _ rfl rfl rfl rfl

/-- Reduction of the try block on the oriented-box path. -/
theorem tryBlock_obb (env : GeoEnv) (sq : SceneQueries) (st : ClampState) (off : ℚ)
    (root : RootTile) (bv : BoundingVolume) (box : OBB)
    (hr : st.tileset.root = some root) (hbv : root.boundingVolume = some bv)
    (hobb : bv.orientedBoundingBox = some box) :
    tryBlock env sq st off =
      (let ebox := effectiveBox env (samplePointsOf (st.tileset.selectedTiles.getD [])) box
       let corners := ebox.bottomCorners
       let st' := { st with scene := drawBoundingBox st.scene ebox corners }
       match calculateBestFitPlane env corners (corners.map fun c =>
           getTerrainHeightAtPosition sq env (env.fromCartesian c)) with
       | none => fallbackWithin env sq st' off
       | some bf =>
         (writeModelMatrix st' (matMul (st.tileset.modelMatrix.getD idMat)
            (calculateAdjustmentTransform ebox bf off)), .ok .precise)) := by
  simp only [tryBlock, hr, hbv, hobb, writeModelMatrix]

/-- Claim C3: if any of the 4 corner terrain samples is absent, the fitter
rejects (it never averages over fewer than 4 present samples), and in the
pipeline the run descends to the fallback tier, the tileset untouched by
the rejected tier. -/
theorem claim_C3_absent_sample_rejects_tier :
    (∀ (env : GeoEnv) (corners : List Cartesian3) (heights : List (Option ℚ)),
      none ∈ heights → calculateBestFitPlane env corners heights = none)
  ∧ (∀ (env : GeoEnv) (sq : SceneQueries) (st : ClampState) (off : ℚ)
      (root : RootTile) (bv : BoundingVolume) (box : OBB),
      st.tileset.root = some root → root.boundingVolume = some bv →
      bv.orientedBoundingBox = some box →
      (∃ c ∈ (effectiveBox env (samplePointsOf (st.tileset.selectedTiles.getD []))
          box).bottomCorners,
        getTerrainHeightAtPosition sq env (env.fromCartesian c) = none) →
      ∃ scene', applyTerrainClampingModel env sq st off
        = fallbackWithin env sq { st with scene := scene' } off) := by
  refine ⟨bestFitPlane_absent, ?_⟩
  intro env sq st off root bv box hr hbv hobb hcorner
  obtain ⟨c, hc, hq⟩ := hcorner
  refine ⟨drawBoundingBox st.scene
    (effectiveBox env (samplePointsOf (st.tileset.selectedTiles.getD [])) box)
    (effectiveBox env (samplePointsOf (st.tileset.selectedTiles.getD []))
      box).bottomCorners, ?_⟩
  apply model_eq_fallbackWithin
  rw [tryBlock_obb env sq st off root bv box hr hbv hobb]
  have hfit := bestFitPlane_absent env
    (effectiveBox env (samplePointsOf (st.tileset.selectedTiles.getD [])) box).bottomCorners
    ((effectiveBox env (samplePointsOf (st.tileset.selectedTiles.getD []))
      box).bottomCorners.map fun c =>
        getTerrainHeightAtPosition sq env (env.fromCartesian c))
    (hq ▸ List.mem_map_of_mem _ hc)
  simp only [hfit]

/-- A concrete tileset exposing the sample oriented box on its root, with
identity root transform and identity model matrix. -/
def sampleTilesetOBB : Tileset where
  root := some { boundingVolume := some { orientedBoundingBox := some sampleOBB,
                                          boundingSphere := none },
                 transform := some idMat }
  boundingSphere := some ⟨⟨0, 0, 0⟩, 50⟩
  modelMatrix := some idMat
  selectedTiles := none

/-- The concrete clamp state built on sampleTilesetOBB. -/
def sampleStateOBB : ClampState := ⟨sampleTilesetOBB, emptyScene⟩

/-- Witness for C3: with terrain data absent everywhere, the oriented-box
tier of the concrete sample state is rejected and the run descends. -/
theorem claim_C3_witness :
    ∃ scene', applyTerrainClampingModel sampleEnv absentQueries sampleStateOBB 10
      = fallbackWithin sampleEnv absentQueries { sampleStateOBB with scene := scene' } 10 :=
  claim_C3_absent_sample_rejects_tier.2 sampleEnv absentQueries sampleStateOBB 10 _ _ _
    rfl rfl rfl ⟨sampleOBB.corner false false false,
      by simp [OBB.bottomCorners, effectiveBox, samplePointsOf, sampleStateOBB,
        sampleTilesetOBB], rfl⟩

/-- Claim C2: evaluation of a successful oriented-box clamp on a tileset
whose root transform field is available (set to the identity).  The run
succeeds and composes the translation into the derived model matrix field,
while the root-level transform field the host framework treats as fixed
input is left untouched: the source writes tileset.modelMatrix
unconditionally and never probes tileset.root.transform, contradicting the
repository's own TERRAIN-CLAMP-FIX.md. -/
theorem claim_C2_root_transform_never_written :
    (applyTerrainClampingModel sampleEnv sampleQueries sampleStateOBB 10).2 = .ok .precise
  ∧ (applyTerrainClampingModel sampleEnv sampleQueries sampleStateOBB 10).1.tileset.root
      = some { boundingVolume := some { orientedBoundingBox := some sampleOBB,
                                        boundingSphere := none },
               transform := some idMat }
  ∧ (applyTerrainClampingModel sampleEnv sampleQueries sampleStateOBB 10).1.tileset.modelMatrix
      = some (fromTranslation ⟨0, 0, -10⟩)
  ∧ (applyTerrainClampingModel sampleEnv sampleQueries sampleStateOBB 10).1.tileset.modelMatrix
      ≠ sampleTilesetOBB.modelMatrix := by
  have hval : applyTerrainClampingModel sampleEnv sampleQueries sampleStateOBB 10
      = (writeModelMatrix
          ⟨sampleTilesetOBB, drawBoundingBox emptyScene sampleOBB sampleOBB.bottomCorners⟩
          (matMul idMat (matMul idMat (fromTranslation
            ⟨0, 0, ((80 - 100) + (80 - 100) + (80 - 100) + (80 - 100)) / 4 + 10⟩))),
         .ok .precise) := rfl
  have hmm : (applyTerrainClampingModel sampleEnv sampleQueries sampleStateOBB 10).1.tileset.modelMatrix
      = some (fromTranslation ⟨0, 0, -10⟩) := by
    rw [hval]
    simp only [writeModelMatrix, idMat_matMul]
    norm_num [fromTranslation, Mat4.mk.injEq]
  refine ⟨by rw [hval], by rw [hval]; rfl, hmm, ?_⟩
  rw [hmm]
  simp only [sampleTilesetOBB, ne_eq, Option.some.injEq]
  norm_num [fromTranslation, idMat, Mat4.mk.injEq]

/-- A tileset with no root, no bounding sphere, no matrix and no tiles. -/
def noDataTileset : Tileset := ⟨none, none, none, none⟩

/-- The clamp state built on noDataTileset. -/
def noDataState : ClampState := ⟨noDataTileset, emptyScene⟩

theorem fallbackWithin_error_state (env : GeoEnv) (sq : SceneQueries)
    (st st1 : ClampState) (off : ℚ) (e : JsErr)
    (h : fallbackWithin env sq st off = (st1, .error e)) : st1 = st := by
  revert h
  unfold fallbackWithin
  cases hfb : applyFallbackClamping env sq st off with
  | mk st2 r =>
    cases r with
    | ok b =>
      cases b <;> intro h <;> exact absurd (Prod.ext_iff.mp h).2 (by simp)
    | error e2 =>
      intro h
      have h1 : st2 = st1 := (Prod.ext_iff.mp h).1
      exact h1 ▸ applyFallbackClamping_error_state env sq st st2 off e2 hfb

theorem fallbackWithin_ok (env : GeoEnv) (sq : SceneQueries) (st : ClampState)
    (off : ℚ) (s : Sphere) (hs : st.tileset.boundingSphere = some s) :
    ∃ st' o, fallbackWithin env sq st off = (st', .ok o) := by
  unfold fallbackWithin
  cases hq : getTerrainHeightAtPosition sq env (env.fromCartesian s.center) with
  | none =>
    rw [applyFallbackClamping_sample_absent env sq st off s hs hq]
    exact ⟨st, .failed, rfl⟩
  | some t =>
    rw [applyFallbackClamping_sample_present env sq st off s t hs hq]
    exact ⟨_, .fallback, rfl⟩

theorem tryBlock_root_none (env : GeoEnv) (sq : SceneQueries) (st : ClampState)
    (off : ℚ) (hr : st.tileset.root = none) :
    tryBlock env sq st off = (st, .error .typeError) := by
  simp only [tryBlock, hr]

theorem tryBlock_bv_none (env : GeoEnv) (sq : SceneQueries) (st : ClampState)
    (off : ℚ) (root : RootTile) (hr : st.tileset.root = some root)
    (hbv : root.boundingVolume = none) :
    tryBlock env sq st off = fallbackWithin env sq st off := by
  simp only [tryBlock, hr, hbv]

theorem tryBlock_obb_none (env : GeoEnv) (sq : SceneQueries) (st : ClampState)
    (off : ℚ) (root : RootTile) (bv : BoundingVolume)
    (hr : st.tileset.root = some root) (hbv : root.boundingVolume = some bv)
    (hobb : bv.orientedBoundingBox = none) :
    tryBlock env sq st off = fallbackWithin env sq st off := by
  simp only [tryBlock, hr, hbv, hobb]

theorem tryBlock_error_tileset (env : GeoEnv) (sq : SceneQueries)
    (st st1 : ClampState) (off : ℚ) (e : JsErr)
    (h : tryBlock env sq st off = (st1, .error e)) : st1.tileset = st.tileset := by
  cases hr : st.tileset.root with
  | none =>
    rw [tryBlock_root_none env sq st off hr] at h
    exact congrArg ClampState.tileset (Prod.ext_iff.mp h).1.symm
  | some root =>
    cases hbv : root.boundingVolume with
    | none =>
      rw [tryBlock_bv_none env sq st off root hr hbv] at h
      exact congrArg ClampState.tileset (fallbackWithin_error_state env sq st st1 off e h)
    | some bv =>
      cases hobb : bv.orientedBoundingBox with
      | none =>
        rw [tryBlock_obb_none env sq st off root bv hr hbv hobb] at h
        exact congrArg ClampState.tileset (fallbackWithin_error_state env sq st st1 off e h)
      | some box =>
        rw [tryBlock_obb env sq st off root bv box hr hbv hobb] at h
        cases hfit : calculateBestFitPlane env
            (effectiveBox env (samplePointsOf (st.tileset.selectedTiles.getD []))
              box).bottomCorners
            ((effectiveBox env (samplePointsOf (st.tileset.selectedTiles.getD []))
              box).bottomCorners.map fun c =>
                getTerrainHeightAtPosition sq env (env.fromCartesian c)) with
        | none =>
          simp only [hfit] at h
          have h2 := fallbackWithin_error_state env sq
            ⟨st.tileset, drawBoundingBox st.scene
              (effectiveBox env (samplePointsOf (st.tileset.selectedTiles.getD [])) box)
              (effectiveBox env (samplePointsOf (st.tileset.selectedTiles.getD []))
                box).bottomCorners⟩ st1 off e h
          rw [h2]
        | some bf =>
          simp only [hfit] at h
          exact absurd (Prod.ext_iff.mp h).2 (by simp)

/-- Claim C4 counterexample: on a tileset with no root and no whole-asset
bounding sphere, the clamp does throw across its public boundary: the
oriented-box tier's field access throws, the catch handler's fallback
attempt throws again reading the absent bounding sphere, and the rejection
escapes to the caller instead of a result value. -/
theorem claim_C4_counterexample :
    applyTerrainClampingModel sampleEnv sampleQueries noDataState 0
      = (noDataState, .error .typeError) := rfl

/-- Claim C4 amended: tier-internal errors are converted to ladder descent
and the caller receives a result value, provided the whole-asset bounding
sphere is present; only a tileset whose bounding sphere is absent can make
the fallback tier itself throw across the boundary. -/
theorem claim_C4_no_throw_when_sphere_present (env : GeoEnv) (sq : SceneQueries)
    (st : ClampState) (off : ℚ) (s : Sphere)
    (hs : st.tileset.boundingSphere = some s) :
    ∃ st' o, applyTerrainClampingModel env sq st off = (st', .ok o) := by
  cases htb : tryBlock env sq st off with
  | mk st1 r =>
    cases r with
    | ok o =>
      refine ⟨st1, o, ?_⟩
      unfold applyTerrainClampingModel
      rw [htb]
    | error e =>
      have ht : st1.tileset = st.tileset :=
        tryBlock_error_tileset env sq st st1 off e htb
      have hs1 : st1.tileset.boundingSphere = some s := ht ▸ hs
      have hred : applyTerrainClampingModel env sq st off =
          (match applyFallbackClamping env sq st1 off with
           | (st'', .ok b) => (st'', .ok (if b then .fallback else .failed))
           | (st'', .error e2) => (st'', .error e2)) := by
        unfold applyTerrainClampingModel
        rw [htb]
      cases hq : getTerrainHeightAtPosition sq env (env.fromCartesian s.center) with
      | none =>
        rw [applyFallbackClamping_sample_absent env sq st1 off s hs1 hq] at hred
        exact ⟨st1, .failed, hred⟩
      | some t =>
        rw [applyFallbackClamping_sample_present env sq st1 off s t hs1 hq] at hred
        exact ⟨_, .fallback, hred⟩

/-- Witness for the amended C4: the concrete sample state has a bounding
sphere, so its clamp returns a result value. -/
theorem claim_C4_witness :
    ∃ st' o, applyTerrainClampingModel sampleEnv sampleQueries sampleStateOBB 10
      = (st', .ok o) :=
  claim_C4_no_throw_when_sphere_present sampleEnv sampleQueries sampleStateOBB 10
    ⟨⟨0, 0, 0⟩, 50⟩ rfl

/-- The one tileset mutation a clamp ever performs: composing the current
model matrix with a pure vertical translation. -/
def appliedTileset (t : Tileset) (z : ℚ) : Tileset :=
  { t with modelMatrix := some (matMul (t.modelMatrix.getD idMat) (fromTranslation ⟨0, 0, z⟩)) }

theorem applyFallbackClamping_result_cases (env : GeoEnv) (sq : SceneQueries)
    (st st1 : ClampState) (off : ℚ) (r : Except JsErr Bool)
    (h : applyFallbackClamping env sq st off = (st1, r)) :
    (r = .error .typeError ∧ st1 = st) ∨ (r = .ok false ∧ st1 = st)
      ∨ (∃ z, r = .ok true ∧ st1.tileset = appliedTileset st.tileset z
          ∧ st1.scene = st.scene) := by
  cases hs : st.tileset.boundingSphere with
  | none =>
    rw [applyFallbackClamping_sphere_none env sq st off hs] at h
    injection h with h1 h2
    exact .inl ⟨h2.symm, h1.symm⟩
  | some s =>
    cases hq : getTerrainHeightAtPosition sq env (env.fromCartesian s.center) with
    | none =>
      rw [applyFallbackClamping_sample_absent env sq st off s hs hq] at h
      injection h with h1 h2
      exact .inr (.inl ⟨h2.symm, h1.symm⟩)
    | some t =>
      rw [applyFallbackClamping_sample_present env sq st off s t hs hq] at h
      injection h with h1 h2
      refine .inr (.inr ⟨t - (env.fromCartesian s.center).height + off, h2.symm, ?_, ?_⟩)
      · rw [← h1]; rfl
      · rw [← h1]; rfl

theorem fallbackWithin_result_cases (env : GeoEnv) (sq : SceneQueries)
    (st st1 : ClampState) (off : ℚ) (r : Except JsErr Outcome)
    (h : fallbackWithin env sq st off = (st1, r)) :
    (r = .error .typeError ∧ st1 = st) ∨ (r = .ok .failed ∧ st1 = st)
      ∨ (∃ z, r = .ok .fallback ∧ st1.tileset = appliedTileset st.tileset z
          ∧ st1.scene = st.scene) := by
  unfold fallbackWithin at h
  cases hfb : applyFallbackClamping env sq st off with
  | mk st2 r2 =>
    rw [hfb] at h
    rcases applyFallbackClamping_result_cases env sq st st2 off r2 hfb with
      ⟨he, hst⟩ | ⟨he, hst⟩ | ⟨z, he, hst, hsc⟩ <;> subst he <;> dsimp only at h <;>
      injection h with h1 h2 <;> subst h1
    · exact .inl ⟨h2.symm, hst⟩
    · exact .inr (.inl ⟨h2.symm, hst⟩)
    · exact .inr (.inr ⟨z, h2.symm, hst, hsc⟩)

theorem tryBlock_result_cases (env : GeoEnv) (sq : SceneQueries)
    (st st1 : ClampState) (off : ℚ) (r : Except JsErr Outcome)
    (h : tryBlock env sq st off = (st1, r)) :
    (r = .error .typeError ∧ st1.tileset = st.tileset)
      ∨ (r = .ok .failed ∧ st1.tileset = st.tileset)
      ∨ (∃ z o, r = .ok o ∧ o ≠ .failed ∧ st1.tileset = appliedTileset st.tileset z) := by
  cases hr : st.tileset.root with
  | none =>
    rw [tryBlock_root_none env sq st off hr] at h
    injection h with h1 h2
    exact .inl ⟨h2.symm, congrArg ClampState.tileset h1.symm⟩
  | some root =>
    cases hbv : root.boundingVolume with
    | none =>
      rw [tryBlock_bv_none env sq st off root hr hbv] at h
      rcases fallbackWithin_result_cases env sq st st1 off r h with
        ⟨he, hst⟩ | ⟨he, hst⟩ | ⟨z, he, hst, _⟩
      · exact .inl ⟨he, congrArg ClampState.tileset hst⟩
      · exact .inr (.inl ⟨he, congrArg ClampState.tileset hst⟩)
      · exact .inr (.inr ⟨z, .fallback, he, by simp, hst⟩)
    | some bv =>
      cases hobb : bv.orientedBoundingBox with
      | none =>
        rw [tryBlock_obb_none env sq st off root bv hr hbv hobb] at h
        rcases fallbackWithin_result_cases env sq st st1 off r h with
          ⟨he, hst⟩ | ⟨he, hst⟩ | ⟨z, he, hst, _⟩
        · exact .inl ⟨he, congrArg ClampState.tileset hst⟩
        · exact .inr (.inl ⟨he, congrArg ClampState.tileset hst⟩)
        · exact .inr (.inr ⟨z, .fallback, he, by simp, hst⟩)
      | some box =>
        rw [tryBlock_obb env sq st off root bv box hr hbv hobb] at h
        cases hfit : calculateBestFitPlane env
            (effectiveBox env (samplePointsOf (st.tileset.selectedTiles.getD []))
              box).bottomCorners
            ((effectiveBox env (samplePointsOf (st.tileset.selectedTiles.getD []))
              box).bottomCorners.map fun c =>
                getTerrainHeightAtPosition sq env (env.fromCartesian c)) with
        | none =>
          simp only [hfit] at h
          rcases fallbackWithin_result_cases env sq _ st1 off r h with
            ⟨he, hst⟩ | ⟨he, hst⟩ | ⟨z, he, hst, _⟩
          · have hx := congrArg ClampState.tileset hst
            exact .inl ⟨he, hx⟩
          · have hx := congrArg ClampState.tileset hst
            exact .inr (.inl ⟨he, hx⟩)
          · exact .inr (.inr ⟨z, .fallback, he, by simp, hst⟩)
        | some bf =>
          simp only [hfit] at h
          injection h with h1 h2
          refine .inr (.inr ⟨bf.averageHeightDifference + off, .precise, h2.symm, by simp, ?_⟩)
          rw [← h1]
          simp only [writeModelMatrix, calculateAdjustmentTransform, idMat_matMul,
            appliedTileset]

theorem model_result_cases (env : GeoEnv) (sq : SceneQueries)
    (st st' : ClampState) (off : ℚ) (r : Except JsErr Outcome)
    (h : applyTerrainClampingModel env sq st off = (st', r)) :
    ((∃ e, r = .error e) ∧ st'.tileset = st.tileset)
      ∨ (r = .ok .failed ∧ st'.tileset = st.tileset)
      ∨ (∃ z o, r = .ok o ∧ o ≠ .failed ∧ st'.tileset = appliedTileset st.tileset z) := by
  unfold applyTerrainClampingModel at h
  cases htb : tryBlock env sq st off with
  | mk st1 r1 =>
    rw [htb] at h
    cases r1 with
    | ok o =>
      dsimp only at h
      injection h with h1 h2
      rw [← h1]
      rcases tryBlock_result_cases env sq st st1 off (.ok o) htb with
        ⟨he, _⟩ | ⟨he, hst⟩ | ⟨z, o2, he, ho, hst⟩
      · exact absurd he (by simp)
      · exact .inr (.inl ⟨h2.symm.trans he, hst⟩)
      · exact .inr (.inr ⟨z, o2, h2.symm.trans he, ho, hst⟩)
    | error e1 =>
      have htt : st1.tileset = st.tileset :=
        tryBlock_error_tileset env sq st st1 off e1 htb
      dsimp only at h
      cases hfb : applyFallbackClamping env sq st1 off with
      | mk st2 r2 =>
        rw [hfb] at h
        rcases applyFallbackClamping_result_cases env sq st1 st2 off r2 hfb with
          ⟨he, hst⟩ | ⟨he, hst⟩ | ⟨z, he, hst, _⟩ <;> subst he <;> dsimp only at h <;>
          injection h with h1 h2 <;> subst h1
        · exact .inl ⟨⟨.typeError, h2.symm⟩, hst ▸ htt⟩
        · exact .inr (.inl ⟨h2.symm, hst ▸ htt⟩)
        · refine .inr (.inr ⟨z, .fallback, h2.symm, by simp, ?_⟩)
          rw [hst, htt]

/-- Claim C5: a clamp that ends in the failed outcome leaves the tileset,
in particular its placement transform and its root transform, exactly as
they were, and the caller is notified by a result value, not an
exception. -/
theorem claim_C5_failed_applies_no_transform (env : GeoEnv) (sq : SceneQueries)
    (st st' : ClampState) (off : ℚ)
    (h : applyTerrainClampingModel env sq st off = (st', .ok .failed)) :
    st'.tileset = st.tileset := by
  rcases model_result_cases env sq st st' off (.ok .failed) h with
    ⟨⟨e, he⟩, _⟩ | ⟨_, hst⟩ | ⟨z, o, he, ho, _⟩
  · exact absurd he (by simp)
  · exact hst
  · exact absurd ((Except.ok.injEq .. ▸ he : Outcome.failed = o).symm) ho

/-- Witness for C5: a concrete failed run (no usable bounding data, sphere
present, terrain absent everywhere) whose tileset is returned unchanged. -/
theorem claim_C5_witness :
    (applyTerrainClampingModel sampleEnv absentQueries
      ⟨⟨none, some ⟨⟨0, 0, 0⟩, 50⟩, none, none⟩, emptyScene⟩ 10).1.tileset
      = (⟨none, some ⟨⟨0, 0, 0⟩, 50⟩, none, none⟩ : Tileset) :=
  claim_C5_failed_applies_no_transform sampleEnv absentQueries
    ⟨⟨none, some ⟨⟨0, 0, 0⟩, 50⟩, none, none⟩, emptyScene⟩ _ 10 rfl

/-- Claim C6: a model with no root oriented box and no root bounding
sphere reaches the fallback tier, which samples terrain at the whole-asset
sphere center only and, when that single sample is present, applies the
height difference (terrain minus center height, plus the offset) directly
as a pure vertical translation and returns the fallback-tagged success,
not the failed outcome. -/
theorem claim_C6_ladder_reaches_fallback (env : GeoEnv) (sq : SceneQueries)
    (st : ClampState) (off : ℚ) (root : RootTile) (s : Sphere) (t : ℚ)
    (hr : st.tileset.root = some root)
    (hnoobb : root.boundingVolume.bind (fun bv => bv.orientedBoundingBox) = none)
    (_hnosph : root.boundingVolume.bind (fun bv => bv.boundingSphere) = none)
    (hs : st.tileset.boundingSphere = some s)
    (hq : getTerrainHeightAtPosition sq env (env.fromCartesian s.center) = some t) :
    applyTerrainClampingModel env sq st off
      = (⟨appliedTileset st.tileset (t - (env.fromCartesian s.center).height + off),
          st.scene⟩, .ok .fallback) := by
  have htb : tryBlock env sq st off = fallbackWithin env sq st off := by
    cases hbv : root.boundingVolume with
    | none => exact tryBlock_bv_none env sq st off root hr hbv
    | some bv =>
      have hob : bv.orientedBoundingBox = none := by
        rw [hbv] at hnoobb
        simpa using hnoobb
      exact tryBlock_obb_none env sq st off root bv hr hbv hob
  rw [model_eq_fallbackWithin env sq st st off htb]
  unfold fallbackWithin
  rw [applyFallbackClamping_sample_present env sq st off s t hs hq]
  rfl

/-- A tileset whose root exposes neither an oriented box nor a root
sphere, leaving only the whole-asset bounding sphere. -/
def sphereOnlyTileset : Tileset :=
  ⟨some ⟨some ⟨none, none⟩, none⟩, some ⟨⟨0, 0, 0⟩, 50⟩, none, none⟩

/-- Witness for C6: the sphere-only tileset with terrain 80 under a center
of geodetic height 100 and offset 10 is clamped by the fallback tier. -/
theorem claim_C6_witness :
    applyTerrainClampingModel sampleEnv sampleQueries ⟨sphereOnlyTileset, emptyScene⟩ 10
      = (⟨appliedTileset sphereOnlyTileset
            (80 - (sampleEnv.fromCartesian (⟨⟨0, 0, 0⟩, 50⟩ : Sphere).center).height + 10),
          emptyScene⟩, .ok .fallback) :=
  claim_C6_ladder_reaches_fallback sampleEnv sampleQueries ⟨sphereOnlyTileset, emptyScene⟩
    10 ⟨some ⟨none, none⟩, none⟩ ⟨⟨0, 0, 0⟩, 50⟩ 80 rfl rfl rfl rfl rfl

/-- Claim C7: re-clamping with identical terrain heights and identical
height offset, where the second run reads each corner's geodetic height as
displaced by the first run's applied offset (averageHeightDifference plus
heightOffset), computes a second offset of exactly 0, so composing the
second adjustment changes no placement transform: no double application
occurs. -/
theorem claim_C7_reclamp_is_idempotent (env env2 : GeoEnv) (box : OBB)
    (c0 c1 c2 c3 d0 d1 d2 d3 : Cartesian3) (t0 t1 t2 t3 off : ℚ)
    (bf1 bf2 : BestFit)
    (h1 : calculateBestFitPlane env [c0, c1, c2, c3]
        [some t0, some t1, some t2, some t3] = some bf1)
    (hd0 : (env2.fromCartesian d0).height
        = (env.fromCartesian c0).height + (bf1.averageHeightDifference + off))
    (hd1 : (env2.fromCartesian d1).height
        = (env.fromCartesian c1).height + (bf1.averageHeightDifference + off))
    (hd2 : (env2.fromCartesian d2).height
        = (env.fromCartesian c2).height + (bf1.averageHeightDifference + off))
    (hd3 : (env2.fromCartesian d3).height
        = (env.fromCartesian c3).height + (bf1.averageHeightDifference + off))
    (h2 : calculateBestFitPlane env2 [d0, d1, d2, d3]
        [some t0, some t1, some t2, some t3] = some bf2) :
    bf2.averageHeightDifference + off = 0
      ∧ ∀ m : Mat4, matMul m (calculateAdjustmentTransform box bf2 off) = m := by
  injection h1 with e1
  injection h2 with e2
  have havg1 : bf1.averageHeightDifference =
      ((t0 - (env.fromCartesian c0).height) + (t1 - (env.fromCartesian c1).height)
        + (t2 - (env.fromCartesian c2).height)
        + (t3 - (env.fromCartesian c3).height)) / 4 := by
    rw [← e1]
  have havg2 : bf2.averageHeightDifference =
      ((t0 - (env2.fromCartesian d0).height) + (t1 - (env2.fromCartesian d1).height)
        + (t2 - (env2.fromCartesian d2).height)
        + (t3 - (env2.fromCartesian d3).height)) / 4 := by
    rw [← e2]
  have hz : bf2.averageHeightDifference + off = 0 := by
    rw [havg2, hd0, hd1, hd2, hd3, havg1]
    ring
  refine ⟨hz, fun m => ?_⟩
  simp only [calculateAdjustmentTransform, idMat_matMul, hz,
    fromTranslation_zero_eq_idMat, matMul_idMat]

/-- The environment seen by the second clamp of the witness scenario: the
model now sits 10 meters lower, so every position reads geodetic height
90. -/
def reclampEnv : GeoEnv where
  fromCartesian := fun _ => ⟨0, 0, 90⟩
  fromRadians := fun _ _ _ => ⟨0, 0, 0⟩
  fromPoints := fun _ => sampleOBB
  normalize := fun v => v

/-- The fit produced by the first clamp of the witness scenario. -/
def bfFirst : BestFit :=
  ⟨((80 - 100) + (80 - 100) + (80 - 100) + (80 - 100)) / 4,
   sampleEnv.normalize ((Cartesian3.sub ⟨0, 0, 0⟩ ⟨0, 0, 0⟩).cross
     (Cartesian3.sub ⟨0, 0, 0⟩ ⟨0, 0, 0⟩)),
   [80, 80, 80, 80]⟩

/-- The fit produced by the second clamp of the witness scenario. -/
def bfSecond : BestFit :=
  ⟨((80 - 90) + (80 - 90) + (80 - 90) + (80 - 90)) / 4,
   reclampEnv.normalize ((Cartesian3.sub ⟨0, 0, 0⟩ ⟨0, 0, 0⟩).cross
     (Cartesian3.sub ⟨0, 0, 0⟩ ⟨0, 0, 0⟩)),
   [80, 80, 80, 80]⟩

/-- Witness for C7: terrain 80, first-clamp heights 100, offset 10; the
first offset is -10, the displaced second clamp computes offset 0 and its
adjustment leaves the identity matrix unchanged. -/
theorem claim_C7_witness :
    bfSecond.averageHeightDifference + 10 = 0
      ∧ matMul idMat (calculateAdjustmentTransform sampleOBB bfSecond 10) = idMat := by
  have h := claim_C7_reclamp_is_idempotent sampleEnv reclampEnv sampleOBB
    ⟨0, 0, 0⟩ ⟨0, 0, 0⟩ ⟨0, 0, 0⟩ ⟨0, 0, 0⟩ ⟨0, 0, 0⟩ ⟨0, 0, 0⟩ ⟨0, 0, 0⟩ ⟨0, 0, 0⟩
    80 80 80 80 10 bfFirst bfSecond rfl
    (by norm_num [sampleEnv, reclampEnv, bfFirst])
    (by norm_num [sampleEnv, reclampEnv, bfFirst])
    (by norm_num [sampleEnv, reclampEnv, bfFirst])
    (by norm_num [sampleEnv, reclampEnv, bfFirst]) rfl
  exact ⟨h.1, h.2 idMat⟩

/-- Claim C8 counterexample: a tileset whose readyPromise exists but never
settles makes the wait step hang forever: in the readyPromise branch of
the source (lines 61 to 65) no timeout is installed, so the wait does not
complete within the 5-second bound (it never completes at all). -/
theorem claim_C8_counterexample :
    waitForInitialContent ⟨false, some none, none⟩ = none := rfl

/-- Claim C8 amended: the wait step is bounded by the 5000 millisecond
timeout whenever tiles are already loaded or the tileset exposes no
readyPromise (the event-listener branch, which races the event against the
timeout); when a readyPromise is present and tiles are not loaded, the
wait completes exactly when the promise settles, with no timeout. -/
theorem claim_C8_wait_bounded_only_without_readyPromise (w : WaitEnv) :
    (w.readyPromise = none → ∃ t, t ≤ 5000 ∧ waitForInitialContent w = some t)
  ∧ (∀ s, w.initialTilesLoaded = false → w.readyPromise = some s →
      waitForInitialContent w = s) := by
  cases hl : w.initialTilesLoaded with
  | true =>
    refine ⟨fun _ => ⟨0, by norm_num, by simp [waitForInitialContent, hl]⟩, ?_⟩
    intro s hfalse _
    simp at hfalse
  | false =>
    constructor
    · intro hrp
      exact ⟨min (w.initialTilesLoadedEvent.getD 5000) 5000, min_le_right _ _,
        by simp [waitForInitialContent, hl, hrp]⟩
    · intro s _ hrp
      simp [waitForInitialContent, hl, hrp]

/-- Witness for the amended C8: without a readyPromise the wait resolves
within the bound; with a readyPromise settling at 7000 milliseconds the
wait takes the full 7000, past the 5-second bound. -/
theorem claim_C8_witness :
    (∃ t, t ≤ 5000 ∧ waitForInitialContent ⟨false, none, none⟩ = some t)
  ∧ waitForInitialContent ⟨false, some (some 7000), some 100⟩ = some 7000 :=
  ⟨(claim_C8_wait_bounded_only_without_readyPromise ⟨false, none, none⟩).1 rfl,
   (claim_C8_wait_bounded_only_without_readyPromise
     ⟨false, some (some 7000), some 100⟩).2 (some 7000) rfl rfl⟩

theorem applyFallbackClamping_scene (env : GeoEnv) (sq : SceneQueries)
    (st : ClampState) (off : ℚ) :
    ((applyFallbackClamping env sq st off).1).scene = st.scene := by
  cases hs : st.tileset.boundingSphere with
  | none => rw [applyFallbackClamping_sphere_none env sq st off hs]
  | some s =>
    cases hq : getTerrainHeightAtPosition sq env (env.fromCartesian s.center) with
    | none => rw [applyFallbackClamping_sample_absent env sq st off s hs hq]
    | some t =>
      rw [applyFallbackClamping_sample_present env sq st off s t hs hq]
      rfl

/-- Claim C9: the adjustment produced by the fitter's consumer is the pure
translation by (averageHeightDifference + heightOffset); it depends only
on that scalar and not on the fitted plane normal; composing it as
existing-transform times translation preserves every entry outside the
translation column; and every non-failed clamp outcome writes exactly the
current model matrix composed with a pure vertical translation. -/
theorem claim_C9_adjustment_is_pure_translation :
    (∀ (box : OBB) (bf : BestFit) (off : ℚ),
      calculateAdjustmentTransform box bf off
        = fromTranslation ⟨0, 0, bf.averageHeightDifference + off⟩)
  ∧ (∀ (box : OBB) (bf bf' : BestFit) (off : ℚ),
      bf'.averageHeightDifference = bf.averageHeightDifference →
      calculateAdjustmentTransform box bf' off = calculateAdjustmentTransform box bf off)
  ∧ (∀ (m : Mat4) (v : Cartesian3),
      (matMul m (fromTranslation v)).nonTranslationPart = m.nonTranslationPart)
  ∧ (∀ (env : GeoEnv) (sq : SceneQueries) (st st' : ClampState) (off : ℚ) (o : Outcome),
      applyTerrainClampingModel env sq st off = (st', .ok o) → o ≠ .failed →
      ∃ z, st'.tileset = appliedTileset st.tileset z) := by
  refine ⟨?_, ?_, matMul_fromTranslation_nonTranslationPart, ?_⟩
  · intro box bf off
    simp [calculateAdjustmentTransform, idMat_matMul]
  · intro box bf bf' off h
    simp [calculateAdjustmentTransform, h]
  · intro env sq st st' off o h ho
    rcases model_result_cases env sq st st' off (.ok o) h with
      ⟨⟨e, he⟩, _⟩ | ⟨he, _⟩ | ⟨z, o2, _, _, hst⟩
    · exact absurd he (by simp)
    · exact absurd (Except.ok.injEq .. ▸ he : o = .failed) ho
    · exact ⟨z, hst⟩

/-- A best-fit record sharing bfFirst's scalar but carrying a different
normal, for exercising normal-independence. -/
def bfAltNormal : BestFit :=
  ⟨bfFirst.averageHeightDifference, ⟨9, 9, 9⟩, []⟩

/-- Witness for C9, each universally quantified part instantiated at
concrete data: the sample adjustment is the pure translation by its
average plus offset, changing the normal changes nothing, the identity
matrix keeps its non-translation entries under composition, and the
successful sample clamp wrote current-matrix times a vertical
translation. -/
theorem claim_C9_witness :
    calculateAdjustmentTransform sampleOBB bfFirst 10
        = fromTranslation ⟨0, 0, bfFirst.averageHeightDifference + 10⟩
  ∧ calculateAdjustmentTransform sampleOBB bfAltNormal 10
        = calculateAdjustmentTransform sampleOBB bfFirst 10
  ∧ (matMul idMat (fromTranslation ⟨1, 2, 3⟩)).nonTranslationPart
        = idMat.nonTranslationPart
  ∧ ∃ z, (applyTerrainClampingModel sampleEnv sampleQueries sampleStateOBB 10).1.tileset
        = appliedTileset sampleStateOBB.tileset z :=
  ⟨claim_C9_adjustment_is_pure_translation.1 sampleOBB bfFirst 10,
   claim_C9_adjustment_is_pure_translation.2.1 sampleOBB bfFirst bfAltNormal 10 rfl,
   claim_C9_adjustment_is_pure_translation.2.2.1 idMat ⟨1, 2, 3⟩,
   claim_C9_adjustment_is_pure_translation.2.2.2 sampleEnv sampleQueries sampleStateOBB
     _ 10 .precise rfl (by decide)⟩

/-- Claim C10: the oriented-box tier's debug visualization mutates the
shared scene before any terrain sampling and regardless of whether the
fit later succeeds: drawBoundingBox appends the bounding-box polyline
primitive and the corner-spheres primitive to the scene's primitive
collection, records both in the scene-attached tracking list, and
schedules each for removal 60000 milliseconds later; and on every run that
enters the oriented-box tier the final scene is exactly the drawn scene,
independent of the terrain samples. -/
theorem claim_C10_debug_draw_mutates_scene :
    (∀ (scene : SceneState) (box : OBB) (corners : List Cartesian3),
      corners ≠ [] →
      ∃ boxId sphereId,
        (drawBoundingBox scene box corners).primitives
            = scene.primitives ++ [boxId, sphereId]
        ∧ (drawBoundingBox scene box corners).terrainClampVisualizations
            = some ((scene.terrainClampVisualizations.getD []) ++ [boxId, sphereId])
        ∧ (60000, boxId) ∈ (drawBoundingBox scene box corners).scheduledRemovals
        ∧ (60000, sphereId) ∈ (drawBoundingBox scene box corners).scheduledRemovals)
  ∧ (∀ (env : GeoEnv) (sq : SceneQueries) (st : ClampState) (off : ℚ)
      (root : RootTile) (bv : BoundingVolume) (box : OBB),
      st.tileset.root = some root → root.boundingVolume = some bv →
      bv.orientedBoundingBox = some box →
      (applyTerrainClampingModel env sq st off).1.scene
        = drawBoundingBox st.scene
            (effectiveBox env (samplePointsOf (st.tileset.selectedTiles.getD [])) box)
            (effectiveBox env (samplePointsOf (st.tileset.selectedTiles.getD []))
              box).bottomCorners) := by
  constructor
  · intro scene box corners hne
    have hie : corners.isEmpty = false := by
      cases corners with
      | nil => exact absurd rfl hne
      | cons a as => rfl
    refine ⟨scene.nextId, scene.nextId + 1, ?_, ?_, ?_, ?_⟩ <;>
      simp [drawBoundingBox, hie]
  · intro env sq st off root bv box hr hbv hobb
    cases htb : tryBlock env sq st off with
    | mk st1 r1 =>
      have hscene : st1.scene = drawBoundingBox st.scene
          (effectiveBox env (samplePointsOf (st.tileset.selectedTiles.getD [])) box)
          (effectiveBox env (samplePointsOf (st.tileset.selectedTiles.getD []))
            box).bottomCorners := by
        rw [tryBlock_obb env sq st off root bv box hr hbv hobb] at htb
        cases hfit : calculateBestFitPlane env
            (effectiveBox env (samplePointsOf (st.tileset.selectedTiles.getD []))
              box).bottomCorners
            ((effectiveBox env (samplePointsOf (st.tileset.selectedTiles.getD []))
              box).bottomCorners.map fun c =>
                getTerrainHeightAtPosition sq env (env.fromCartesian c)) with
        | none =>
          simp only [hfit] at htb
          rcases fallbackWithin_result_cases env sq _ st1 off r1 htb with
            ⟨_, hst⟩ | ⟨_, hst⟩ | ⟨z, _, _, hsc⟩
          · rw [hst]
          · rw [hst]
          · rw [hsc]
        | some bf =>
          simp only [hfit] at htb
          injection htb with h1 h2
          rw [← h1]
          rfl
      unfold applyTerrainClampingModel
      rw [htb]
      cases r1 with
      | ok o => exact hscene
      | error e =>
        dsimp only
        cases hfb : applyFallbackClamping env sq st1 off with
        | mk st2 r2 =>
          have hsc2 : st2.scene = st1.scene := by
            have := applyFallbackClamping_scene env sq st1 off
            rw [hfb] at this
            exact this
          cases r2 with
          | ok b => exact hsc2.trans hscene
          | error e2 => exact hsc2.trans hscene

/-- Witness for C10: the concrete sample run enters the oriented-box tier
and its final scene is the drawn scene: two primitives appended to the
empty scene, both tracked, both scheduled for removal at 60000
milliseconds. -/
theorem claim_C10_witness :
    (∃ boxId sphereId,
      (drawBoundingBox emptyScene sampleOBB sampleOBB.bottomCorners).primitives
          = emptyScene.primitives ++ [boxId, sphereId]
      ∧ (drawBoundingBox emptyScene sampleOBB sampleOBB.bottomCorners).terrainClampVisualizations
          = some ((emptyScene.terrainClampVisualizations.getD []) ++ [boxId, sphereId])
      ∧ (60000, boxId) ∈ (drawBoundingBox emptyScene sampleOBB
          sampleOBB.bottomCorners).scheduledRemovals
      ∧ (60000, sphereId) ∈ (drawBoundingBox emptyScene sampleOBB
          sampleOBB.bottomCorners).scheduledRemovals)
  ∧ (applyTerrainClampingModel sampleEnv absentQueries sampleStateOBB 10).1.scene
      = drawBoundingBox emptyScene
          (effectiveBox sampleEnv (samplePointsOf
            (sampleStateOBB.tileset.selectedTiles.getD [])) sampleOBB)
          (effectiveBox sampleEnv (samplePointsOf
            (sampleStateOBB.tileset.selectedTiles.getD [])) sampleOBB).bottomCorners :=
  ⟨claim_C10_debug_draw_mutates_scene.1 emptyScene sampleOBB sampleOBB.bottomCorners
      (by simp [OBB.bottomCorners]),
   claim_C10_debug_draw_mutates_scene.2 sampleEnv absentQueries sampleStateOBB 10
      _ _ _ rfl rfl rfl⟩

end TerrainClamp
